import Mathlib

/-!
Verification development for the TwichGram Twitch-to-Telegram clips tool
(`src/src/__main__.py`, the current version of the program; the second file
`src/__main__.py` is an older revision of the same module with the same
pipeline logic and without the blacklist features).

The Python program is shallowly embedded: the SQLite-backed clip store
becomes a pair of lists (rows in insertion order, with `slug` as primary
key), the asyncio queues become lists processed in FIFO order, and the
network is an explicit oracle argument (a list or function giving the
response of each request).  Every definition below is translated from the
named Python function in the source.
-/

set_option autoImplicit false

namespace TwichGram

/-- The `TwitchClip` dataclass (`src/src/__main__.py` lines 25-35).
`curator_name`, `curator_url` and `mp4_url` are `str | None` in the source,
hence `Option String` here.  `durationSeconds` is an `int`. -/
structure TwitchClip where
  slug : String
  title : String
  url : String
  created_at : String
  durationSeconds : Int
  curator_name : Option String
  curator_url : Option String
  thumbnail_url : String
  mp4_url : Option String
deriving DecidableEq

/-- The SQLite database `database/clips.db` (`init_clips_database`,
lines 103-111): a `clips` table with primary key `slug` and a
`blacklist_clips` table holding just slugs.  Rows are kept in insertion
order, as SQLite stores them. -/
structure ClipsDb where
  clips : List TwitchClip
  blacklist : List String
deriving DecidableEq

/-- `check_if_clip_exists` (lines 117-121):
`SELECT slug FROM clips WHERE slug = ?` and test whether a row came back. -/
def check_if_clip_exists (slug : String) (db : ClipsDb) : Bool :=
  db.clips.any (fun c => c.slug == slug)

/-- `check_if_clip_is_blacklisted` (lines 123-127):
`SELECT slug FROM blacklist_clips WHERE slug = ?`. -/
def check_if_clip_is_blacklisted (slug : String) (db : ClipsDb) : Bool :=
  db.blacklist.any (fun s => s == slug)

/-- `add_clip_to_db` (lines 113-115): `INSERT OR IGNORE INTO clips`.
With `slug` the primary key, `OR IGNORE` appends the row exactly when no
row with the same slug exists; otherwise the statement is a no-op (never
an error). -/
def add_clip_to_db (clip : TwitchClip) (db : ClipsDb) : ClipsDb :=
  if check_if_clip_exists clip.slug db then db
  else ClipsDb.mk (db.clips ++ [clip]) db.blacklist

/-- `add_clip_to_blacklist` (lines 129-132): inserts the slug into
`blacklist_clips` only when the clip exists and is not already
blacklisted; otherwise nothing runs. -/
def add_clip_to_blacklist (slug : String) (db : ClipsDb) : ClipsDb :=
  if check_if_clip_exists slug db && !(check_if_clip_is_blacklisted slug db) then
    ClipsDb.mk db.clips (db.blacklist ++ [slug])
  else db

/-- `remove_clip_from_blacklist` (lines 134-137): deletes the slug from
`blacklist_clips` only when the clip exists and is currently
blacklisted; otherwise nothing runs. -/
def remove_clip_from_blacklist (slug : String) (db : ClipsDb) : ClipsDb :=
  if check_if_clip_exists slug db && check_if_clip_is_blacklisted slug db then
    ClipsDb.mk db.clips (db.blacklist.filter (fun s => !(s == slug)))
  else db

/-- `get_blacklisted_clips` (lines 139-141):
`SELECT slug,title, url FROM clips WHERE slug IN (SELECT slug FROM
blacklist_clips)` — the clip rows whose slug is blacklisted, projected to
`(slug, title, url)`, in clip-table order. -/
def get_blacklisted_clips (db : ClipsDb) : List (String × String × String) :=
  (db.clips.filter (fun c => check_if_clip_is_blacklisted c.slug db)).map
    (fun c => (c.slug, c.title, c.url))

/-- Referential invariant relating the two tables: every blacklisted slug
has a clip row (spec section 3). -/
def BlacklistInv (db : ClipsDb) : Prop :=
  ∀ s ∈ db.blacklist, ∃ c ∈ db.clips, c.slug = s

instance (db : ClipsDb) : Decidable (BlacklistInv db) := by
  unfold BlacklistInv
  exact List.decidableBAll _ db.blacklist

/-! ### Python `str.replace` and the video-URL derivation (line 227) -/

/-- Does `pat` occur at the very start of `s`? -/
def patMatches : List Char → List Char → Bool
  | [], _ => true
  | _ :: _, [] => false
  | p :: ps, c :: cs => p == c && patMatches ps cs

/-- Does `pat` occur as a contiguous substring anywhere in `s`
(including at the end, matching Python `pat in s`)? -/
def containsSub (pat : List Char) : List Char → Bool
  | [] => patMatches pat []
  | c :: cs => patMatches pat (c :: cs) || containsSub pat cs

/-- Python `s.replace(pat, rep)` for a non-empty `pat`: scan left to
right, replacing each non-overlapping occurrence of `pat` by `rep`. -/
def replaceAll (pat rep : List Char) : List Char → List Char
  | [] => []
  | c :: cs =>
    if pat ≠ [] ∧ patMatches pat (c :: cs) = true then
      rep ++ replaceAll pat rep ((c :: cs).drop pat.length)
    else
      c :: replaceAll pat rep cs
termination_by s => s.length
decreasing_by
  · rename_i h
    obtain ⟨hne, _⟩ := h
    cases pat with
    | nil => exact absurd rfl hne
    | cons p ps => simp [List.length_drop]; omega
  · simp

/-- The thumbnail-naming pattern `"-preview-480x272.jpg"` that line 227
rewrites to `".mp4"`. -/
def previewChars : List Char := "-preview-480x272.jpg".data

/-- The replacement `".mp4"`. -/
def mp4Chars : List Char := ".mp4".data

/-- The derivation on line 227:
`clip['thumbnail_url'].replace('-preview-480x272.jpg', '.mp4')`. -/
def deriveMp4 (thumbnail : String) : String :=
  String.mk (replaceAll previewChars mp4Chars thumbnail.data)

/-! ### Clip Fetcher (`fetch_clips`, lines 181-242) -/

/-- One clip object of the Twitch Helix `/clips` response `data` array,
with the fields the program reads (lines 218-227). -/
structure RawClip where
  id : String
  title : String
  url : String
  created_at : String
  duration : Int
  creator_name : String
  thumbnail_url : String
deriving DecidableEq

/-- The `TwitchClip` constructed for each fetched clip (lines 218-228). -/
def rawToClip (r : RawClip) : TwitchClip :=
  TwitchClip.mk r.id r.title r.url r.created_at r.duration
    (some r.creator_name)
    (some ("https://www.twitch.tv/" ++ r.creator_name))
    r.thumbnail_url
    (some (deriveMp4 r.thumbnail_url))

/-- Outcome of one paged GET of `/helix/clips` as the program observes it:
a 200 response with its `data` array and (possibly empty) pagination
cursor, a response whose status is not 200 (line 234), or a raised
transport error (line 237). -/
inductive PageResp
  | ok (clips : List RawClip) (cursor : String)
  | httpError (status : Nat)
  | exn
deriving DecidableEq

/-- Result of the inner pagination loop of one fetch cycle
(lines 197-239).  `aborted` is true exactly when the loop ended through
`return None` (non-200 status or exception); `pagesConsumed` counts the
requests issued. -/
structure CycleResult where
  emitted : List TwitchClip
  aborted : Bool
  pagesConsumed : Nat
deriving DecidableEq

/-- The inner pagination loop, driven by the list of responses the API
returns this cycle.  A 200 page with no clips breaks; a 200 page with
clips enqueues their conversions and continues while a cursor is
present; any other outcome is `return None`.  (An exhausted oracle list
is read as the loop having stopped; the theorems below only inspect runs
that end inside the list.) -/
def runCycle : List PageResp → CycleResult
  | [] => CycleResult.mk [] false 0
  | p :: rest =>
    match p with
    | PageResp.ok clips cursor =>
      if clips = [] then CycleResult.mk [] false 1
      else if cursor = "" then CycleResult.mk (clips.map rawToClip) false 1
      else
        let r := runCycle rest
        CycleResult.mk (clips.map rawToClip ++ r.emitted) r.aborted (r.pagesConsumed + 1)
    | PageResp.httpError _ => CycleResult.mk [] true 1
    | PageResp.exn => CycleResult.mk [] true 1

/-- Observable trace of the `while True` fetch loop (lines 187-242),
token handling abstracted away (it is modelled by `get_twitch_bearer`
below).  `sleeps` counts executions of the `finally` block
`asyncio.sleep(CONFIGS[clip_fetch_interval])`; `returned` is true when
the coroutine `fetch_clips` returned, terminating the fetcher task. -/
structure FetchTrace where
  cyclesRun : Nat
  sleeps : Nat
  emitted : List TwitchClip
  returned : Bool
deriving DecidableEq

/-- The fetch loop over a (finite prefix of the infinite) run: each entry
of the outer list is the page-response sequence of one cycle.  After the
inner loop ends, the `finally` sleep always runs; if the cycle aborted
via `return None`, the function then returns — later cycles never run.
An empty outer list means the loop is still going (never a normal
exit). -/
def runFetcher : List (List PageResp) → FetchTrace
  | [] => FetchTrace.mk 0 0 [] false
  | pages :: rest =>
    let c := runCycle pages
    if c.aborted then FetchTrace.mk 1 1 c.emitted true
    else
      let t := runFetcher rest
      FetchTrace.mk (t.cyclesRun + 1) (t.sleeps + 1) (c.emitted ++ t.emitted) t.returned

/-! ### Token Manager (`get_twitch_bearer`, lines 151-178) -/

/-- `MAX_RETRIES = 3` (line 151). -/
def MAX_RETRIES : Nat := 3

/-- `RETRY_DELAY = 2` seconds (line 152). -/
def RETRY_DELAY : Nat := 2

/-- Outcome of one POST to the OAuth token endpoint: a 200 response with
`access_token` and `expires_in`, a non-200 status (line 167), or a
raised exception (line 169). -/
inductive TokenAttempt
  | success (token : String) (expiresIn : Nat)
  | failStatus (code : Nat)
  | failExn
deriving DecidableEq

/-- Whether the attempt returned a 200 response. -/
def TokenAttempt.isSuccess : TokenAttempt → Bool
  | TokenAttempt.success _ _ => true
  | _ => false

/-- Observable outcome of `get_twitch_bearer`: the returned tuple
(`none` models the `(None, None)` sentinel of line 178), the number of
attempts made, the inter-attempt sleeps performed (each
`asyncio.sleep(RETRY_DELAY)`, line 175), and the number of
`logging.error` calls (one per failed attempt, lines 168/170, plus the
terminal one on line 177). -/
structure TokenResult where
  result : Option (String × Nat)
  attempts : Nat
  sleeps : List Nat
  errorLogs : Nat
deriving DecidableEq

/-- The `while retries < MAX_RETRIES` loop, with `remaining` attempts
left and `i` the index of the next attempt in the oracle.  A sleep runs
after a failed attempt only while `retries < MAX_RETRIES` still holds
(line 173). -/
def bearerAux (oracle : Nat → TokenAttempt) : Nat → Nat → TokenResult
  | 0, _ => TokenResult.mk none 0 [] 1
  | rem + 1, i =>
    match oracle i with
    | TokenAttempt.success t e => TokenResult.mk (some (t, e)) 1 [] 0
    | _ =>
      let rest := bearerAux oracle rem (i + 1)
      TokenResult.mk rest.result (rest.attempts + 1)
        ((if rem ≠ 0 then [RETRY_DELAY] else []) ++ rest.sleeps)
        (rest.errorLogs + 1)

/-- `get_twitch_bearer` (lines 154-178) against an oracle giving the
outcome of each attempt. -/
def get_twitch_bearer (oracle : Nat → TokenAttempt) : TokenResult :=
  bearerAux oracle MAX_RETRIES 0

/-! ### Dedup/Dispatch Stage (`process_clips_queue`, lines 244-250) -/

/-- One iteration of the `process_clips_queue` loop body on a dequeued
`TwitchClip`: if the slug is not in the store, insert it and forward the
clip to the telegram queue (`some clip`); otherwise drop it (`none`). -/
def process_clip_step (clip : TwitchClip) (db : ClipsDb) : ClipsDb × Option TwitchClip :=
  if check_if_clip_exists clip.slug db then (db, none)
  else (add_clip_to_db clip db, some clip)

/-- `process_clips_queue` run over a finite queue of clips in FIFO
order, returning the final store and the list of clips forwarded to the
telegram (delivery) queue, in order. -/
def process_clips_run : List TwitchClip → ClipsDb → ClipsDb × List TwitchClip
  | [], db => (db, [])
  | c :: rest, db =>
    ((process_clips_run rest (process_clip_step c db).1).1,
     (process_clip_step c db).2.toList ++ (process_clips_run rest (process_clip_step c db).1).2)

/-! ### Delivery Stage (`send_clip_to_telegram`, lines 252-286) -/

/-- Outcome of one `pyro_instance.send_video` call as the program
observes it: success, a raised `FloodWait` carrying its wait-seconds
value, or any other raised error. -/
inductive SendOutcome
  | ok
  | floodWait (seconds : Nat)
  | otherErr
deriving DecidableEq

/-- One issued `send_video` call; `enriched` is true for the retry call
of lines 274-281, which adds `thumb`, `disable_notification=True` and
`supports_streaming=True`. -/
structure SendCall where
  enriched : Bool
deriving DecidableEq

/-- How one `send_clip_to_telegram` invocation ends. `raisedOut` means an
exception escaped the function (nothing inside it catches exceptions
raised by the retry call of lines 274-281). -/
inductive DeliveryEnd
  | delivered
  | downloadFailedLogged
  | sendErrorLogged
  | retryDelivered
  | raisedOut
deriving DecidableEq

/-- Observable trace of one `send_clip_to_telegram` invocation. -/
structure DeliveryTrace where
  sleeps : List Nat
  sends : List SendCall
  outcome : DeliveryEnd
  errorLogs : Nat
deriving DecidableEq

/-- `send_clip_to_telegram` (lines 252-286) against the download status
of the clip asset, the outcome of the first (plain) send, and the
outcome of the enriched retry send (consulted only after a
`FloodWait`).  A non-200 download logs and abandons; a plain-send
`FloodWait e` logs, sleeps `e.value` seconds, then issues the enriched
send, whose own failure is uncaught; any other plain-send error logs and
abandons. -/
def send_clip_to_telegram (downloadStatus : Nat) (first retry : SendOutcome) : DeliveryTrace :=
  if downloadStatus = 200 then
    match first with
    | SendOutcome.ok => DeliveryTrace.mk [] [SendCall.mk false] DeliveryEnd.delivered 0
    | SendOutcome.otherErr => DeliveryTrace.mk [] [SendCall.mk false] DeliveryEnd.sendErrorLogged 1
    | SendOutcome.floodWait n =>
      match retry with
      | SendOutcome.ok =>
        DeliveryTrace.mk [n] [SendCall.mk false, SendCall.mk true] DeliveryEnd.retryDelivered 1
      | _ =>
        DeliveryTrace.mk [n] [SendCall.mk false, SendCall.mk true] DeliveryEnd.raisedOut 1
  else DeliveryTrace.mk [] [] DeliveryEnd.downloadFailedLogged 1

/-! ### Clip Server (`run_clip_server`, lines 302-371) -/

/-- JSON bodies produced by the server handlers. -/
inductive RespBody
  | clip (slug : String) (mp4 : Option String) (title : String)
  | err (msg : String)
  | ok
  | blacklistRows (rows : List (String × String × String))
deriving DecidableEq

/-- An aiohttp `web.json_response` with its HTTP status. -/
structure HttpResponse where
  status : Nat
  body : RespBody
deriving DecidableEq

/-- `handle_clip_request` (lines 304-311): `SELECT slug, mp4_url, title
FROM clips WHERE slug NOT IN (SELECT slug FROM blacklist_clips) ORDER BY
RANDOM() LIMIT 1`.  The uniform random row choice of `ORDER BY RANDOM()
LIMIT 1` is modelled by an oracle `k`; the row at index `k mod n` among
the `n` eligible rows is selected, so a uniformly distributed `k`
selects each eligible row with equal probability. -/
def handle_clip_request (db : ClipsDb) (k : Nat) : HttpResponse :=
  match db.clips.filter (fun c => !(check_if_clip_is_blacklisted c.slug db)) with
  | [] => HttpResponse.mk 404 (RespBody.err "No clips found")
  | c :: rest =>
    let chosen := (c :: rest).get ⟨k % (c :: rest).length, Nat.mod_lt k (Nat.succ_pos rest.length)⟩
    HttpResponse.mk 200 (RespBody.clip chosen.slug chosen.mp4_url chosen.title)

/-- The `{'status': 'success'}` response (lines 337/351). -/
def successResp : HttpResponse := HttpResponse.mk 200 RespBody.ok

/-- The 400 `{'error': 'No slug provided'}` response (lines 339/353). -/
def noSlugResp : HttpResponse := HttpResponse.mk 400 (RespBody.err "No slug provided")

/-- The 500 `{'error': 'Internal server error'}` response (lines 342/356). -/
def internalErrResp : HttpResponse := HttpResponse.mk 500 (RespBody.err "Internal server error")

/-- `add_to_blacklist` (lines 330-342).  `tokenParam` is
`request.query.get('webserver_secret_token')` (`none` when absent);
`body` is the result of `await request.json()` followed by
`data.get('slug')` — `Except.error` when parsing raised (caught as 500),
otherwise the optional slug value.  When the method/token guard on line
332 is false the function body just ends, so the handler returns Python
`None` instead of a response: modelled by `Option.none` in the first
component. -/
def add_to_blacklist (secret method : String) (tokenParam : Option String)
    (body : Except Unit (Option String)) (db : ClipsDb) : Option HttpResponse × ClipsDb :=
  if method = "POST" ∧ tokenParam = some secret then
    match body with
    | Except.error _ => (some internalErrResp, db)
    | Except.ok none => (some noSlugResp, db)
    | Except.ok (some slug) =>
      if slug = "" then (some noSlugResp, db)
      else (some successResp, add_clip_to_blacklist slug db)
  else (none, db)

/-- `remove_from_blacklist` (lines 344-356), symmetric to
`add_to_blacklist` with the same missing else-branch on its guard. -/
def remove_from_blacklist (secret method : String) (tokenParam : Option String)
    (body : Except Unit (Option String)) (db : ClipsDb) : Option HttpResponse × ClipsDb :=
  if method = "POST" ∧ tokenParam = some secret then
    match body with
    | Except.error _ => (some internalErrResp, db)
    | Except.ok none => (some noSlugResp, db)
    | Except.ok (some slug) =>
      if slug = "" then (some noSlugResp, db)
      else (some successResp, remove_clip_from_blacklist slug db)
  else (none, db)

/-! ### Concrete fixtures used by witness theorems -/

/-- An empty store, as `init_clips_database` creates it. -/
def db0 : ClipsDb := ClipsDb.mk [] []

/-- A sample clip. -/
def clipA : TwitchClip :=
  TwitchClip.mk "abc123" "Great Play" "https://clips.twitch.tv/abc123"
    "2024-01-01T00:00:00Z" 30 (some "cur") (some "https://www.twitch.tv/cur")
    "https://cdn/abc-preview-480x272.jpg" (some "https://cdn/abc.mp4")

/-- A second clip with the same slug as `clipA` but different fields. -/
def clipB : TwitchClip :=
  TwitchClip.mk "abc123" "Other Title" "https://clips.twitch.tv/other"
    "2024-02-02T00:00:00Z" 12 none none
    "https://cdn/other-preview-480x272.jpg" (some "https://cdn/other.mp4")

/-- A clip with a slug distinct from `clipA`. -/
def clipC : TwitchClip :=
  TwitchClip.mk "xyz789" "Second Clip" "https://clips.twitch.tv/xyz789"
    "2024-03-03T00:00:00Z" 20 (some "cur2") (some "https://www.twitch.tv/cur2")
    "https://cdn/xyz-preview-480x272.jpg" (some "https://cdn/xyz.mp4")

/-! ### Store lemmas -/

theorem add_clip_noop (c : TwitchClip) (db : ClipsDb)
    (h : check_if_clip_exists c.slug db = true) : add_clip_to_db c db = db := by
  unfold add_clip_to_db
  rw [if_pos h]

theorem add_clip_fresh (c : TwitchClip) (db : ClipsDb)
    (h : check_if_clip_exists c.slug db = false) :
    add_clip_to_db c db = ClipsDb.mk (db.clips ++ [c]) db.blacklist := by
  unfold add_clip_to_db
  rw [if_neg (by simp [h])]

theorem exists_add_clip (slug : String) (c : TwitchClip) (db : ClipsDb) :
    check_if_clip_exists slug (add_clip_to_db c db)
      = (check_if_clip_exists slug db || (c.slug == slug)) := by
  cases hc : check_if_clip_exists c.slug db with
  | true =>
    rw [add_clip_noop c db hc]
    by_cases hs : c.slug = slug
    · subst hs
      simp [hc]
    · simp [beq_iff_eq, hs]
  | false =>
    rw [add_clip_fresh c db hc]
    simp [check_if_clip_exists, List.any_append]

theorem countP_slug_zero (slug : String) (db : ClipsDb)
    (h : check_if_clip_exists slug db = false) :
    List.countP (fun c => c.slug == slug) db.clips = 0 := by
  rw [List.countP_eq_zero]
  intro a ha
  intro hp
  have : db.clips.any (fun c => c.slug == slug) = true :=
    List.any_eq_true.mpr ⟨a, ha, hp⟩
  rw [check_if_clip_exists] at h
  simp [this] at h

theorem countP_slug_one_of_nodup (slug : String) :
    ∀ l : List TwitchClip, (l.map TwitchClip.slug).Nodup →
      l.any (fun c => c.slug == slug) = true →
      List.countP (fun c => c.slug == slug) l = 1 := by
  intro l
  induction l with
  | nil => intro _ h; simp at h
  | cons c rest ih =>
    intro hnd hany
    rw [List.map_cons, List.nodup_cons] at hnd
    by_cases hc : c.slug = slug
    · have hrest : List.countP (fun x => x.slug == slug) rest = 0 := by
        rw [List.countP_eq_zero]
        intro a ha hp
        have ha2 : a.slug = slug := by simpa [beq_iff_eq] using hp
        have : c.slug ∈ rest.map TwitchClip.slug := by
          rw [List.mem_map]
          exact ⟨a, ha, by rw [ha2, hc]⟩
        exact hnd.1 this
      simp [List.countP_cons, hrest, beq_iff_eq, hc]
    · have hcb : (c.slug == slug) = false := by simp [beq_iff_eq, hc]
      rw [List.any_cons, hcb] at hany
      simp only [Bool.false_or] at hany
      simp [List.countP_cons, hcb, ih hnd.2 hany]

/-- Claim C2: clip insertion is idempotent.  Inserting two clips with the
same slug leaves exactly one record for that slug, the second insert is a
literal no-op on the store (never an error: `add_clip_to_db` is total),
and the fields recorded by the first insert are unchanged (a fresh slug
appends exactly the first clip; a known slug changes nothing). -/
theorem C2_insert_idempotent (db : ClipsDb) (c1 c2 : TwitchClip)
    (hslug : c2.slug = c1.slug) (hnd : (db.clips.map TwitchClip.slug).Nodup) :
    add_clip_to_db c2 (add_clip_to_db c1 db) = add_clip_to_db c1 db
    ∧ List.countP (fun c => c.slug == c1.slug)
        (add_clip_to_db c2 (add_clip_to_db c1 db)).clips = 1
    ∧ (check_if_clip_exists c1.slug db = false →
        (add_clip_to_db c1 db).clips = db.clips ++ [c1])
    ∧ (check_if_clip_exists c1.slug db = true → add_clip_to_db c1 db = db) := by
  have hex2 : check_if_clip_exists c2.slug (add_clip_to_db c1 db) = true := by
    rw [exists_add_clip]
    have : (c1.slug == c2.slug) = true := by simp [beq_iff_eq, hslug]
    simp [this]
  have hnoop : add_clip_to_db c2 (add_clip_to_db c1 db) = add_clip_to_db c1 db :=
    add_clip_noop c2 (add_clip_to_db c1 db) hex2
  refine ⟨hnoop, ?_, ?_, ?_⟩
  · rw [hnoop]
    cases hex : check_if_clip_exists c1.slug db with
    | false =>
      rw [add_clip_fresh c1 db hex]
      show List.countP (fun c => c.slug == c1.slug) (db.clips ++ [c1]) = 1
      rw [List.countP_append, countP_slug_zero c1.slug db hex]
      simp [List.countP_cons]
    | true =>
      rw [add_clip_noop c1 db hex]
      exact countP_slug_one_of_nodup c1.slug db.clips hnd hex
  · intro hex
    rw [add_clip_fresh c1 db hex]
  · intro hex
    exact add_clip_noop c1 db hex

/-- Witness for C2 at a concrete input: two clips sharing slug
`"abc123"` inserted into the empty store. -/
theorem C2_insert_idempotent_witness :
    clipB.slug = clipA.slug
    ∧ (db0.clips.map TwitchClip.slug).Nodup
    ∧ (add_clip_to_db clipB (add_clip_to_db clipA db0) = add_clip_to_db clipA db0
       ∧ List.countP (fun c => c.slug == clipA.slug)
           (add_clip_to_db clipB (add_clip_to_db clipA db0)).clips = 1
       ∧ (check_if_clip_exists clipA.slug db0 = false →
           (add_clip_to_db clipA db0).clips = db0.clips ++ [clipA])
       ∧ (check_if_clip_exists clipA.slug db0 = true → add_clip_to_db clipA db0 = db0)) :=
  ⟨by decide, by decide, C2_insert_idempotent db0 clipA clipB (by decide) (by decide)⟩

/-! ### Dedup/Dispatch lemmas (C1) -/

theorem step_exists (c : TwitchClip) (db : ClipsDb)
    (h : check_if_clip_exists c.slug db = true) :
    process_clip_step c db = (db, none) := by
  unfold process_clip_step
  rw [if_pos h]

theorem step_fresh (c : TwitchClip) (db : ClipsDb)
    (h : check_if_clip_exists c.slug db = false) :
    process_clip_step c db = (add_clip_to_db c db, some c) := by
  unfold process_clip_step
  rw [if_neg (by simp [h])]

theorem forwarded_count_le (slug : String) :
    ∀ (q : List TwitchClip) (db : ClipsDb),
      List.countP (fun c => c.slug == slug) (process_clips_run q db).2
        ≤ (if check_if_clip_exists slug db = true then 0 else 1) := by
  intro q
  induction q with
  | nil =>
    intro db
    simp only [process_clips_run, List.countP_nil]
    split
    · exact Nat.le_refl 0
    · exact Nat.zero_le 1
  | cons c rest ih =>
    intro db
    cases hc : check_if_clip_exists c.slug db with
    | true =>
      simp only [process_clips_run, step_exists c db hc, Option.toList_none, List.nil_append]
      exact ih db
    | false =>
      simp only [process_clips_run, step_fresh c db hc, Option.toList_some,
        List.singleton_append]
      have hadd := exists_add_clip slug c db
      by_cases hs : c.slug = slug
      · have hdbslug : check_if_clip_exists slug db = false := by rw [← hs]; exact hc
        have hadd2 : check_if_clip_exists slug (add_clip_to_db c db) = true := by
          rw [hadd, hdbslug]
          simp [beq_iff_eq, hs]
        have h2 := ih (add_clip_to_db c db)
        rw [hadd2] at h2
        have h2z : List.countP (fun x => x.slug == slug)
            (process_clips_run rest (add_clip_to_db c db)).2 = 0 := Nat.le_zero.mp h2
        have hcb : (c.slug == slug) = true := by simp [beq_iff_eq, hs]
        simp [List.countP_cons, hcb, h2z, hdbslug]
      · have hcb : (c.slug == slug) = false := by simp [beq_iff_eq, hs]
        have hadd3 : check_if_clip_exists slug (add_clip_to_db c db)
            = check_if_clip_exists slug db := by
          rw [hadd, hcb, Bool.or_false]
        have h2 := ih (add_clip_to_db c db)
        rw [hadd3] at h2
        rw [List.countP_cons, hcb]
        simpa using h2

/-- Claim C1: the dedup/dispatch stage.  For every clip dequeued from the
raw-clip queue: an unknown slug is inserted into the store and the clip is
put on the delivery queue; a known slug is dropped with nothing enqueued
and the store unchanged.  Consequently, over any run of the stage from
any store state, at most one clip per slug is forwarded to the delivery
queue, and none at all when the slug was already stored. -/
theorem C1_dedup_at_most_once (q : List TwitchClip) (db : ClipsDb)
    (clip : TwitchClip) (slug : String) :
    (check_if_clip_exists clip.slug db = false →
       process_clip_step clip db
         = (ClipsDb.mk (db.clips ++ [clip]) db.blacklist, some clip))
    ∧ (check_if_clip_exists clip.slug db = true →
       process_clip_step clip db = (db, none))
    ∧ List.countP (fun c => c.slug == slug) (process_clips_run q db).2 ≤ 1
    ∧ (check_if_clip_exists slug db = true →
        List.countP (fun c => c.slug == slug) (process_clips_run q db).2 = 0) := by
  refine ⟨?_, ?_, ?_, ?_⟩
  · intro h
    rw [step_fresh clip db h, add_clip_fresh clip db h]
  · intro h
    exact step_exists clip db h
  · have h := forwarded_count_le slug q db
    split at h <;> omega
  · intro hex
    have h := forwarded_count_le slug q db
    rw [hex] at h
    exact Nat.le_zero.mp h

/-- Witness for C1: a queue holding two clips with slug `"abc123"` and
one with slug `"xyz789"`, processed from the empty store, forwards at
most one clip per slug, and a fresh clip is inserted and forwarded. -/
theorem C1_dedup_at_most_once_witness :
    check_if_clip_exists clipA.slug db0 = false
    ∧ process_clip_step clipA db0
        = (ClipsDb.mk (db0.clips ++ [clipA]) db0.blacklist, some clipA)
    ∧ List.countP (fun c => c.slug == "abc123")
        (process_clips_run [clipA, clipB, clipC] db0).2 ≤ 1 :=
  ⟨by decide,
   (C1_dedup_at_most_once [clipA, clipB, clipC] db0 clipA "abc123").1 (by decide),
   (C1_dedup_at_most_once [clipA, clipB, clipC] db0 clipA "abc123").2.2.1⟩

/-! ### Blacklist invariant (C8) -/

/-- Claim C8: `add_clip_to_blacklist` mutates the blacklist only when the
slug has a clip record and is not already blacklisted; in every other
case it is a no-op.  All three store mutators preserve the referential
invariant (blacklisted slugs have clip rows), and blacklisting an
unknown slug leaves the listing without that slug. -/
theorem C8_blacklist_referential (db : ClipsDb) (s : String) (c : TwitchClip) :
    (check_if_clip_exists s db = true → check_if_clip_is_blacklisted s db = false →
       add_clip_to_blacklist s db = ClipsDb.mk db.clips (db.blacklist ++ [s]))
    ∧ (check_if_clip_exists s db = false ∨ check_if_clip_is_blacklisted s db = true →
       add_clip_to_blacklist s db = db)
    ∧ (BlacklistInv db →
        BlacklistInv (add_clip_to_db c db)
        ∧ BlacklistInv (add_clip_to_blacklist s db)
        ∧ BlacklistInv (remove_clip_from_blacklist s db))
    ∧ (check_if_clip_exists s db = false →
        ∀ row ∈ get_blacklisted_clips (add_clip_to_blacklist s db), row.1 ≠ s) := by
  refine ⟨?_, ?_, ?_, ?_⟩
  · intro h1 h2
    unfold add_clip_to_blacklist
    rw [if_pos (by simp [h1, h2])]
  · intro h
    unfold add_clip_to_blacklist
    rcases h with h | h
    · rw [if_neg (by simp [h])]
    · rw [if_neg (by simp [h])]
  · intro hinv
    refine ⟨?_, ?_, ?_⟩
    · cases hc : check_if_clip_exists c.slug db with
      | true => rw [add_clip_noop c db hc]; exact hinv
      | false =>
        rw [add_clip_fresh c db hc]
        intro s2 hs2
        obtain ⟨c2, hc2, he⟩ := hinv s2 hs2
        exact ⟨c2, List.mem_append_left _ hc2, he⟩
    · unfold add_clip_to_blacklist
      by_cases hg : (check_if_clip_exists s db && !check_if_clip_is_blacklisted s db) = true
      · rw [if_pos hg]
        intro s2 hs2
        rcases List.mem_append.mp hs2 with h | h
        · exact hinv s2 h
        · have hs2s : s2 = s := by simpa using h
          subst hs2s
          have hex : check_if_clip_exists s2 db = true := by
            have := hg
            simp only [Bool.and_eq_true] at this
            exact this.1
          obtain ⟨c2, hc2, hb⟩ := List.any_eq_true.mp hex
          exact ⟨c2, hc2, by simpa [beq_iff_eq] using hb⟩
      · rw [if_neg hg]
        exact hinv
    · unfold remove_clip_from_blacklist
      by_cases hg : (check_if_clip_exists s db && check_if_clip_is_blacklisted s db) = true
      · rw [if_pos hg]
        intro s2 hs2
        have hs2b : s2 ∈ db.blacklist := List.mem_of_mem_filter hs2
        exact hinv s2 hs2b
      · rw [if_neg hg]
        exact hinv
  · intro hne row hrow
    have hnoop : add_clip_to_blacklist s db = db := by
      unfold add_clip_to_blacklist
      rw [if_neg (by simp [hne])]
    rw [hnoop] at hrow
    obtain ⟨c2, hc2, he⟩ := List.mem_map.mp hrow
    intro hrs
    have hcslug : c2.slug = s := by rw [← hrs, ← he]
    have hmem : c2 ∈ db.clips := List.mem_of_mem_filter hc2
    have : check_if_clip_exists s db = true :=
      List.any_eq_true.mpr ⟨c2, hmem, by simp [beq_iff_eq, hcslug]⟩
    rw [this] at hne
    exact Bool.true_eq_false.mp hne

/-- Witness for C8: a store holding one clip with slug `"abc123"`:
blacklisting it is effective and keeps the invariant; blacklisting the
unknown slug `"nope"` in the empty store leaves the listing empty of it. -/
theorem C8_blacklist_referential_witness :
    check_if_clip_exists "abc123" (ClipsDb.mk [clipA] []) = true
    ∧ check_if_clip_is_blacklisted "abc123" (ClipsDb.mk [clipA] []) = false
    ∧ add_clip_to_blacklist "abc123" (ClipsDb.mk [clipA] [])
        = ClipsDb.mk [clipA] ([] ++ ["abc123"])
    ∧ BlacklistInv (add_clip_to_blacklist "abc123" (ClipsDb.mk [clipA] []))
    ∧ check_if_clip_exists "nope" db0 = false
    ∧ (∀ row ∈ get_blacklisted_clips (add_clip_to_blacklist "nope" db0), row.1 ≠ "nope") :=
  ⟨by decide, by decide,
   (C8_blacklist_referential (ClipsDb.mk [clipA] []) "abc123" clipC).1 (by decide) (by decide),
   ((C8_blacklist_referential (ClipsDb.mk [clipA] []) "abc123" clipC).2.2.1 (by decide)).2.1,
   by decide,
   (C8_blacklist_referential db0 "nope" clipC).2.2.2 (by decide)⟩

/-! ### `str.replace` lemmas (C9) -/

theorem patMatches_refl : ∀ pat : List Char, patMatches pat pat = true := by
  intro pat
  induction pat with
  | nil => rfl
  | cons p ps ih => simp [patMatches, ih]

theorem replaceAll_not_contains (pat rep : List Char) :
    ∀ s, containsSub pat s = false → replaceAll pat rep s = s := by
  intro s
  induction s with
  | nil =>
    intro _
    rw [replaceAll]
  | cons c cs ih =>
    intro h
    rw [containsSub, Bool.or_eq_false_iff] at h
    rw [replaceAll, if_neg (by simp [h.1])]
    rw [ih h.2]

theorem replaceAll_append_pat (pat rep : List Char) (hne : pat ≠ []) :
    ∀ s, (∀ i, i < s.length → patMatches pat ((s ++ pat).drop i) = false) →
      replaceAll pat rep (s ++ pat) = s ++ rep := by
  intro s
  induction s with
  | nil =>
    intro _
    cases pat with
    | nil => exact absurd rfl hne
    | cons p ps =>
      simp only [List.nil_append]
      rw [replaceAll, if_pos ⟨List.cons_ne_nil p ps, patMatches_refl (p :: ps)⟩]
      rw [List.drop_length, replaceAll, List.append_nil]
  | cons c cs ih =>
    intro h
    have h0 : patMatches pat (c :: (cs ++ pat)) = false := by
      have := h 0 (Nat.succ_pos cs.length)
      simpa [List.cons_append] using this
    have hrest : ∀ i, i < cs.length → patMatches pat ((cs ++ pat).drop i) = false := by
      intro i hi
      have := h (i + 1) (Nat.succ_lt_succ hi)
      simpa [List.cons_append, List.drop_succ_cons] using this
    rw [List.cons_append, replaceAll, if_neg (by simp [h0])]
    rw [ih hrest]
    rw [List.cons_append]

/-- Claim C9: the derived video URL is the thumbnail URL with the
thumbnail-naming pattern `"-preview-480x272.jpg"` replaced by `".mp4"`:
a thumbnail of the shape `.../foo-preview-480x272.jpg` (the pattern
occurring only as the trailing suffix) derives `.../foo.mp4`, a
thumbnail not containing the pattern is left unchanged, and the fetcher
stores exactly this derivation in each constructed clip's `mp4_url`. -/
theorem C9_video_url_derivation (s t : List Char)
    (hs : ∀ i, i < s.length → patMatches previewChars ((s ++ previewChars).drop i) = false)
    (ht : containsSub previewChars t = false) :
    replaceAll previewChars mp4Chars (s ++ previewChars) = s ++ mp4Chars
    ∧ replaceAll previewChars mp4Chars t = t
    ∧ ∀ r : RawClip, (rawToClip r).mp4_url = some (deriveMp4 r.thumbnail_url) := by
  refine ⟨?_, ?_, ?_⟩
  · exact replaceAll_append_pat previewChars mp4Chars (by decide) s hs
  · exact replaceAll_not_contains previewChars mp4Chars t ht
  · intro r
    rfl

/-- Witness for C9: `"https://cdn/foo-preview-480x272.jpg"` derives
`"https://cdn/foo.mp4"`, and `"https://cdn/bar.png"` is unchanged. -/
theorem C9_video_url_derivation_witness :
    (∀ i, i < ("https://cdn/foo".data).length →
       patMatches previewChars
         (("https://cdn/foo".data ++ previewChars).drop i) = false)
    ∧ containsSub previewChars ("https://cdn/bar.png".data) = false
    ∧ (replaceAll previewChars mp4Chars ("https://cdn/foo".data ++ previewChars)
         = "https://cdn/foo".data ++ mp4Chars
       ∧ replaceAll previewChars mp4Chars ("https://cdn/bar.png".data)
         = "https://cdn/bar.png".data
       ∧ ∀ r : RawClip, (rawToClip r).mp4_url = some (deriveMp4 r.thumbnail_url)) :=
  ⟨by decide, by decide,
   C9_video_url_derivation "https://cdn/foo".data "https://cdn/bar.png".data
     (by decide) (by decide)⟩

/-! ### Token Manager lemmas (C6) -/

theorem bearerAux_attempts_le (oracle : Nat → TokenAttempt) :
    ∀ rem i, (bearerAux oracle rem i).attempts ≤ rem := by
  intro rem
  induction rem with
  | zero => intro i; simp [bearerAux]
  | succ n ih =>
    intro i
    cases h : oracle i with
    | success t e => simp [bearerAux, h]
    | failStatus code =>
      simp only [bearerAux, h]
      have := ih (i + 1)
      omega
    | failExn =>
      simp only [bearerAux, h]
      have := ih (i + 1)
      omega

theorem bearerAux_sleeps_fixed (oracle : Nat → TokenAttempt) :
    ∀ rem i, ∀ d ∈ (bearerAux oracle rem i).sleeps, d = RETRY_DELAY := by
  intro rem
  induction rem with
  | zero => intro i d hd; simp [bearerAux] at hd
  | succ n ih =>
    intro i d hd
    cases h : oracle i with
    | success t e => rw [bearerAux] at hd; simp [h] at hd
    | failStatus code =>
      rw [bearerAux] at hd
      simp only [h] at hd
      rcases List.mem_append.mp hd with hl | hr
      · rcases Nat.eq_zero_or_pos n with hn | hn
        · simp [hn] at hl
        · have : n ≠ 0 := Nat.pos_iff_ne_zero.mp hn
          simp [this] at hl
          exact hl
      · exact ih (i + 1) d hr
    | failExn =>
      rw [bearerAux] at hd
      simp only [h] at hd
      rcases List.mem_append.mp hd with hl | hr
      · rcases Nat.eq_zero_or_pos n with hn | hn
        · simp [hn] at hl
        · have : n ≠ 0 := Nat.pos_iff_ne_zero.mp hn
          simp [this] at hl
          exact hl
      · exact ih (i + 1) d hr

theorem bearerAux_all_fail (oracle : Nat → TokenAttempt) :
    ∀ rem i, (∀ j, j < rem → (oracle (i + j)).isSuccess = false) →
      bearerAux oracle rem i
        = TokenResult.mk none rem (List.replicate (rem - 1) RETRY_DELAY) (rem + 1) := by
  intro rem
  induction rem with
  | zero => intro i _; rfl
  | succ n ih =>
    intro i hf
    have h0 : (oracle i).isSuccess = false := by
      have := hf 0 (Nat.succ_pos n)
      simpa using this
    have hrest : ∀ j, j < n → (oracle (i + 1 + j)).isSuccess = false := by
      intro j hj
      have := hf (j + 1) (Nat.succ_lt_succ hj)
      have harith : i + (j + 1) = i + 1 + j := by omega
      rwa [harith] at this
    cases h : oracle i with
    | success t e => rw [h] at h0; simp [TokenAttempt.isSuccess] at h0
    | failStatus code =>
      rw [bearerAux]
      simp only [h, ih (i + 1) hrest]
      rcases Nat.eq_zero_or_pos n with hn | hn
      · subst hn; rfl
      · have hne : n ≠ 0 := Nat.pos_iff_ne_zero.mp hn
        cases n with
        | zero => exact absurd rfl hne
        | succ m => simp [List.replicate_succ]
    | failExn =>
      rw [bearerAux]
      simp only [h, ih (i + 1) hrest]
      rcases Nat.eq_zero_or_pos n with hn | hn
      · subst hn; rfl
      · have hne : n ≠ 0 := Nat.pos_iff_ne_zero.mp hn
        cases n with
        | zero => exact absurd rfl hne
        | succ m => simp [List.replicate_succ]

/-- Claim C6: token acquisition makes at most `MAX_RETRIES = 3` attempts
with a fixed `RETRY_DELAY = 2`-second sleep between attempts; when every
attempt fails (non-200 status or exception) it makes exactly 3 attempts,
logs an error per failed attempt plus the terminal
"Max retries reached" error, and returns the `(None, None)` sentinel —
the modelled `AuthError` surface, distinguishable from every successful
token tuple — instead of looping forever. -/
theorem C6_token_retry_bound (oracle : Nat → TokenAttempt) :
    (get_twitch_bearer oracle).attempts ≤ MAX_RETRIES
    ∧ (∀ d ∈ (get_twitch_bearer oracle).sleeps, d = RETRY_DELAY)
    ∧ ((∀ i, i < MAX_RETRIES → (oracle i).isSuccess = false) →
        get_twitch_bearer oracle
          = TokenResult.mk none MAX_RETRIES [RETRY_DELAY, RETRY_DELAY] (MAX_RETRIES + 1)) := by
  refine ⟨?_, ?_, ?_⟩
  · exact bearerAux_attempts_le oracle MAX_RETRIES 0
  · exact bearerAux_sleeps_fixed oracle MAX_RETRIES 0
  · intro hf
    have := bearerAux_all_fail oracle MAX_RETRIES 0 (by intro j hj; simpa using hf j hj)
    rw [get_twitch_bearer, this]
    rfl

/-- Witness for C6: an oracle whose every attempt raises. -/
theorem C6_token_retry_bound_witness :
    (∀ i, i < MAX_RETRIES → ((fun _ => TokenAttempt.failExn) i).isSuccess = false)
    ∧ get_twitch_bearer (fun _ => TokenAttempt.failExn)
        = TokenResult.mk none MAX_RETRIES [RETRY_DELAY, RETRY_DELAY] (MAX_RETRIES + 1) :=
  ⟨fun _ _ => rfl,
   (C6_token_retry_bound (fun _ => TokenAttempt.failExn)).2.2 (fun _ _ => rfl)⟩

/-! ### Clip server: `GET /clip` (C3) -/

/-- Claim C3: `GET /clip` answers 404 with the `No clips found` error
body exactly when no non-blacklisted clip exists; otherwise it answers
200 with the `{slug, mp4_url, title}` of a stored, non-blacklisted clip
— never a blacklisted slug — and, modelling `ORDER BY RANDOM() LIMIT 1`
by the choice oracle `k`, every eligible clip is selected by some oracle
value (each equally often for uniformly distributed `k`). -/
theorem C3_random_clip_endpoint (db : ClipsDb) (k : Nat) :
    (db.clips.filter (fun c => !(check_if_clip_is_blacklisted c.slug db)) = [] →
       handle_clip_request db k = HttpResponse.mk 404 (RespBody.err "No clips found"))
    ∧ (db.clips.filter (fun c => !(check_if_clip_is_blacklisted c.slug db)) ≠ [] →
       ∃ c, c ∈ db.clips ∧ check_if_clip_is_blacklisted c.slug db = false
         ∧ handle_clip_request db k
             = HttpResponse.mk 200 (RespBody.clip c.slug c.mp4_url c.title))
    ∧ (∀ c, c ∈ db.clips.filter (fun x => !(check_if_clip_is_blacklisted x.slug db)) →
       ∃ k2, handle_clip_request db k2
         = HttpResponse.mk 200 (RespBody.clip c.slug c.mp4_url c.title)) := by
  have hcons : ∀ (k2 : Nat) (c0 : TwitchClip) (rest : List TwitchClip),
      db.clips.filter (fun c => !(check_if_clip_is_blacklisted c.slug db)) = c0 :: rest →
      handle_clip_request db k2
        = HttpResponse.mk 200
            (RespBody.clip
              ((c0 :: rest).get ⟨k2 % (c0 :: rest).length,
                Nat.mod_lt k2 (Nat.succ_pos rest.length)⟩).slug
              ((c0 :: rest).get ⟨k2 % (c0 :: rest).length,
                Nat.mod_lt k2 (Nat.succ_pos rest.length)⟩).mp4_url
              ((c0 :: rest).get ⟨k2 % (c0 :: rest).length,
                Nat.mod_lt k2 (Nat.succ_pos rest.length)⟩).title) := by
    intro k2 c0 rest hel
    unfold handle_clip_request
    rw [hel]
  refine ⟨?_, ?_, ?_⟩
  · intro hel
    unfold handle_clip_request
    rw [hel]
  · intro hne
    cases hel : db.clips.filter (fun c => !(check_if_clip_is_blacklisted c.slug db)) with
    | nil => exact absurd hel hne
    | cons c0 rest =>
      have hmem : (c0 :: rest).get
          ⟨k % (c0 :: rest).length, Nat.mod_lt k (Nat.succ_pos rest.length)⟩
            ∈ db.clips.filter (fun c => !(check_if_clip_is_blacklisted c.slug db)) := by
        rw [hel]
        exact List.get_mem _ _ _
      have hfm := List.mem_filter.mp hmem
      exact ⟨_, hfm.1, by simpa using hfm.2, hcons k c0 rest hel⟩
  · intro c hc
    cases hel : db.clips.filter (fun x => !(check_if_clip_is_blacklisted x.slug db)) with
    | nil => rw [hel] at hc; exact absurd hc (List.not_mem_nil c)
    | cons c0 rest =>
      rw [hel] at hc
      obtain ⟨n, hn⟩ := List.mem_iff_get.mp hc
      refine ⟨n.1, ?_⟩
      rw [hcons n.1 c0 rest hel]
      have hfin : (⟨n.1 % (c0 :: rest).length,
          Nat.mod_lt n.1 (Nat.succ_pos rest.length)⟩ : Fin (c0 :: rest).length) = n :=
        Fin.ext (Nat.mod_eq_of_lt n.2)
      rw [hfin, hn]

/-- Witness for C3: a store with one eligible clip (`clipA`) and one
blacklisted slug serves `clipA` with 200; the empty store answers 404. -/
theorem C3_random_clip_endpoint_witness :
    ((ClipsDb.mk [clipA] ["zzz"]).clips.filter
        (fun c => !(check_if_clip_is_blacklisted c.slug (ClipsDb.mk [clipA] ["zzz"]))) ≠ [])
    ∧ (∃ c, c ∈ (ClipsDb.mk [clipA] ["zzz"]).clips
        ∧ check_if_clip_is_blacklisted c.slug (ClipsDb.mk [clipA] ["zzz"]) = false
        ∧ handle_clip_request (ClipsDb.mk [clipA] ["zzz"]) 0
            = HttpResponse.mk 200 (RespBody.clip c.slug c.mp4_url c.title))
    ∧ (db0.clips.filter (fun c => !(check_if_clip_is_blacklisted c.slug db0)) = []
       ∧ handle_clip_request db0 7 = HttpResponse.mk 404 (RespBody.err "No clips found")) :=
  ⟨by decide,
   (C3_random_clip_endpoint (ClipsDb.mk [clipA] ["zzz"]) 0).2.1 (by decide),
   by decide,
   (C3_random_clip_endpoint db0 7).1 (by decide)⟩

/-! ### Clip Fetcher error handling (C4) -/

/-- Claim C4, settled against the code: a non-success status or raised
transport error aborts the cycle immediately (first conjuncts: no
further page of the cycle is requested, nothing more is emitted) and the
post-cycle sleep in the `finally` block still runs (the trace records
one sleep); but then `fetch_clips` executes `return None`, so the
fetcher task terminates — the remaining cycles never run, refuting the
claim's "the fetch loop then resumes with a new cycle".  The claim
matches the spec's stated intent (and the log line
"Cycle ended! Sleeping for N seconds"), so the `return None` on
lines 236/239 is the code slip. -/
theorem C4_fetch_error_reaches_sleep_then_returns (pages : List PageResp)
    (rest : List (List PageResp)) (s : Nat) :
    runCycle (PageResp.httpError s :: pages) = CycleResult.mk [] true 1
    ∧ runCycle (PageResp.exn :: pages) = CycleResult.mk [] true 1
    ∧ ((runCycle pages).aborted = true →
        runFetcher (pages :: rest) = FetchTrace.mk 1 1 (runCycle pages).emitted true) := by
  refine ⟨rfl, rfl, ?_⟩
  intro h
  simp [runFetcher, h]

/-- Witness for C4 at the failing input: the first cycle's only page
answers HTTP 429; a second, healthy cycle is available but never runs —
the trace shows one cycle, one sleep, and a returned (terminated)
fetcher. -/
theorem C4_fetch_error_reaches_sleep_then_returns_witness :
    (runCycle [PageResp.httpError 429]).aborted = true
    ∧ runFetcher [[PageResp.httpError 429], [PageResp.ok [] ""]]
        = FetchTrace.mk 1 1 (runCycle [PageResp.httpError 429]).emitted true :=
  ⟨rfl,
   (C4_fetch_error_reaches_sleep_then_returns [PageResp.httpError 429]
     [[PageResp.ok [] ""]] 429).2.2 rfl⟩

/-! ### Clip server blacklist endpoints (C5, C10) -/

/-- Claim C5, settled against the code: when the
`webserver_secret_token` query parameter differs from the configured
secret, `add_to_blacklist` performs no mutation — but it also produces
no response at all (the guard on line 332 has no else branch, so the
handler returns Python `None`, which aiohttp turns into an internal
server error), not the HTTP 401 the claim states.  The sibling handler
`get_blacklist_clips` does return 401 on the same condition, so the
missing else branch is the code slip. -/
theorem C5_wrong_token_no_response (secret method : String) (tokenParam : Option String)
    (body : Except Unit (Option String)) (db : ClipsDb)
    (h : tokenParam ≠ some secret) :
    add_to_blacklist secret method tokenParam body db = (none, db) := by
  unfold add_to_blacklist
  rw [if_neg (fun hc => h hc.2)]

/-- Witness for C5 at the failing input: wrong token `"wrong"` against
secret `"s3cret"`, with a valid body and a store holding one clip. -/
theorem C5_wrong_token_no_response_witness :
    (some "wrong" ≠ some "s3cret")
    ∧ add_to_blacklist "s3cret" "POST" (some "wrong")
        (Except.ok (some "abc123")) (ClipsDb.mk [clipA] [])
        = (none, ClipsDb.mk [clipA] []) :=
  ⟨by decide,
   C5_wrong_token_no_response "s3cret" "POST" (some "wrong")
     (Except.ok (some "abc123")) (ClipsDb.mk [clipA] []) (by decide)⟩

/-- Claim C10: with the correct token and a non-empty slug, both
blacklist mutation endpoints answer `{status: success}` whatever the
store state — in particular also when the underlying operation is a
no-op (unknown slug; already blacklisted on add; not blacklisted on
remove) — so an ineffective mutation is indistinguishable from an
effective one at the HTTP interface. -/
theorem C10_success_even_when_noop (secret : String) (db : ClipsDb) (slug : String)
    (h : slug ≠ "") :
    add_to_blacklist secret "POST" (some secret) (Except.ok (some slug)) db
      = (some successResp, add_clip_to_blacklist slug db)
    ∧ remove_from_blacklist secret "POST" (some secret) (Except.ok (some slug)) db
      = (some successResp, remove_clip_from_blacklist slug db)
    ∧ (check_if_clip_exists slug db = false →
        add_clip_to_blacklist slug db = db ∧ remove_clip_from_blacklist slug db = db)
    ∧ (check_if_clip_is_blacklisted slug db = true → add_clip_to_blacklist slug db = db)
    ∧ (check_if_clip_is_blacklisted slug db = false →
        remove_clip_from_blacklist slug db = db) := by
  refine ⟨?_, ?_, ?_, ?_, ?_⟩
  · unfold add_to_blacklist
    simp [h]
  · unfold remove_from_blacklist
    simp [h]
  · intro hex
    constructor
    · unfold add_clip_to_blacklist
      rw [if_neg (by simp [hex])]
    · unfold remove_clip_from_blacklist
      rw [if_neg (by simp [hex])]
  · intro hbl
    unfold add_clip_to_blacklist
    rw [if_neg (by simp [hbl])]
  · intro hbl
    unfold remove_clip_from_blacklist
    rw [if_neg (by simp [hbl])]

/-- Witness for C10: slug `"abc123"` with matching token `"tok"` against
the empty store — the operation is a no-op yet the response is the
success body. -/
theorem C10_success_even_when_noop_witness :
    ("abc123" : String) ≠ ""
    ∧ add_to_blacklist "tok" "POST" (some "tok") (Except.ok (some "abc123")) db0
        = (some successResp, add_clip_to_blacklist "abc123" db0)
    ∧ check_if_clip_exists "abc123" db0 = false
    ∧ add_clip_to_blacklist "abc123" db0 = db0 :=
  ⟨by decide,
   (C10_success_even_when_noop "tok" db0 "abc123" (by decide)).1,
   by decide,
   ((C10_success_even_when_noop "tok" db0 "abc123" (by decide)).2.2.1 (by decide)).1⟩

/-! ### Delivery Stage rate-limit handling (C7) -/

/-- Counterexample to claim C7 as stated: with a successful download, a
first send failing with `FloodWait 5`, and the enriched retry itself
failing, the delivery does sleep 5 seconds and retry once enriched, but
the retry's failure is not logged and does not stop at a log — the
exception escapes `send_clip_to_telegram` (`raisedOut`; only the
flood-wait log, `errorLogs = 1`, was written), contradicting "the
failure stops at the log and never propagates to crash the delivery
stage". -/
theorem C7_retry_failure_propagates_counterexample :
    send_clip_to_telegram 200 (SendOutcome.floodWait 5) SendOutcome.otherErr
      = DeliveryTrace.mk [5] [SendCall.mk false, SendCall.mk true]
          DeliveryEnd.raisedOut 1 := rfl

/-- Claim C7 amended: on a rate-limit signal the stage sleeps exactly
the signalled seconds and retries exactly once with the enriched
options; any other first-attempt send error is logged and the delivery
abandoned without retry; but a failure of the single enriched retry is
not caught or logged — the exception propagates out of the delivery
routine (whose caller `process_telegram_queue` has no handler either). -/
theorem C7_floodwait_retry_once_enriched (n : Nat) (retry : SendOutcome) :
    (send_clip_to_telegram 200 (SendOutcome.floodWait n) retry).sleeps = [n]
    ∧ (send_clip_to_telegram 200 (SendOutcome.floodWait n) retry).sends
        = [SendCall.mk false, SendCall.mk true]
    ∧ (retry = SendOutcome.ok →
        send_clip_to_telegram 200 (SendOutcome.floodWait n) retry
          = DeliveryTrace.mk [n] [SendCall.mk false, SendCall.mk true]
              DeliveryEnd.retryDelivered 1)
    ∧ (retry ≠ SendOutcome.ok →
        (send_clip_to_telegram 200 (SendOutcome.floodWait n) retry).outcome
          = DeliveryEnd.raisedOut)
    ∧ send_clip_to_telegram 200 SendOutcome.otherErr retry
        = DeliveryTrace.mk [] [SendCall.mk false] DeliveryEnd.sendErrorLogged 1
    ∧ send_clip_to_telegram 200 SendOutcome.ok retry
        = DeliveryTrace.mk [] [SendCall.mk false] DeliveryEnd.delivered 0 := by
  refine ⟨?_, ?_, ?_, ?_, rfl, rfl⟩
  · cases retry <;> rfl
  · cases retry <;> rfl
  · intro hr
    subst hr
    rfl
  · intro hr
    cases retry with
    | ok => exact absurd rfl hr
    | floodWait m => rfl
    | otherErr => rfl

/-- Witness for C7 (amended) with a failing enriched retry. -/
theorem C7_floodwait_retry_once_enriched_witness :
    (SendOutcome.otherErr ≠ SendOutcome.ok)
    ∧ (send_clip_to_telegram 200 (SendOutcome.floodWait 5) SendOutcome.otherErr).outcome
        = DeliveryEnd.raisedOut
    ∧ (send_clip_to_telegram 200 (SendOutcome.floodWait 5) SendOutcome.otherErr).sleeps
        = [5] :=
  ⟨by decide,
   (C7_floodwait_retry_once_enriched 5 SendOutcome.otherErr).2.2.2.1 (by decide),
   (C7_floodwait_retry_once_enriched 5 SendOutcome.otherErr).1⟩

end TwichGram
